import Mathlib

/-!
# Verification of the e-commerce API gateway

Shallow embedding of the API gateway service of the repository
(`services/api-gateway/src/server.js` and
`services/api-gateway/src/routes/health.js`) and proofs of the claims
about its routing, rate limiting, health reporting and error handling.

Request paths are modelled as lists of path segments (an Express mount
path `/api/users` matches exactly the requests whose segment list
starts with `["api", "users"]`, which is the Express mount semantics:
`/api/users`, `/api/users/7`, but not `/api/users7`).
-/

namespace Gateway

/-- Environment variables read by the gateway (`process.env.*`);
`none` models an unset variable. -/
structure Env where
  userServiceUrl : Option String
  productServiceUrl : Option String
  orderServiceUrl : Option String
  nodeEnv : Option String
deriving DecidableEq, Repr

/-- Value of `process.env.X || default`: the variable when set,
otherwise the hard-coded default. -/
def envOr : Option String → String → String
  | some s, _ => s
  | none, d => d

/-- The three upstream microservices the gateway proxies to. -/
inductive Svc where
  | user
  | product
  | order
deriving DecidableEq, Repr

/-- Proxy target of each upstream, from `createProxyMiddleware` options:
environment variable with a hard-coded fallback. -/
def upstreamTarget (env : Env) : Svc → String
  | .user => envOr env.userServiceUrl ("http://user-service:3001")
  | .product => envOr env.productServiceUrl ("http://product-service:3002")
  | .order => envOr env.orderServiceUrl ("http://order-service:3003")

/-- The configured upstream registry: every logical service name together
with its resolved base URL. -/
def registry (env : Env) : List (Svc × String) :=
  [(.user, upstreamTarget env .user),
   (.product, upstreamTarget env .product),
   (.order, upstreamTarget env .order)]

/-- Display name used in the proxy error handlers and log lines. -/
def svcLabel : Svc → String
  | .user => "User"
  | .product => "Product"
  | .order => "Order"

/-- The proxy mounts of `server.js` in declaration order
(the `/api/users` mount with `userServiceProxy` and the six that follow). -/
def routeTable : List (List String × Svc) :=
  [(["api", "users"], .user),
   (["api", "auth"], .user),
   (["api", "products"], .product),
   (["api", "categories"], .product),
   (["api", "inventory"], .product),
   (["api", "orders"], .order),
   (["api", "cart"], .order)]

/-- The mount path of the rate limiter, which guards `/api/`. -/
def apiMount : List String := ["api"]

/-- The `max` option of the `express-rate-limit` configuration. -/
def maxRequestsPerWindow : Nat := 300

/-- The `pathRewrite` tables of the three `createProxyMiddleware` calls;
every rule in the source maps a prefix to itself. -/
def rewriteRules : Svc → List (List String × List String)
  | .user =>
    [(["api", "users"], ["api", "users"]),
     (["api", "auth"], ["api", "auth"])]
  | .product =>
    [(["api", "products"], ["api", "products"]),
     (["api", "categories"], ["api", "categories"]),
     (["api", "inventory"], ["api", "inventory"])]
  | .order =>
    [(["api", "orders"], ["api", "orders"]),
     (["api", "cart"], ["api", "cart"])]

/-- Apply the first matching rewrite rule: replace the matched leading
segments with the replacement of the rule, keep the rest of the path. -/
def applyRewrite (rules : List (List String × List String))
    (p : List String) : List String :=
  match rules.find? (fun r => r.1.isPrefixOf p) with
  | some r => r.2 ++ p.drop r.1.length
  | none => p

/-- A JSON value as produced by the `res.json(...)` calls of the gateway. -/
inductive JVal where
  | str (s : String)
  | num (n : Nat)
  | obj (fields : List (String × JVal))

/-- Field lookup on a JSON object. -/
def JVal.lookup (v : JVal) (k : String) : Option JVal :=
  match v with
  | .obj fs => fs.lookup k
  | _ => none

/-- Field names of a JSON object, in order. -/
def JVal.keys : JVal → List String
  | .obj fs => fs.map (fun f => f.1)
  | _ => []

/-- An inbound HTTP request as the gateway sees it. -/
structure Request where
  method : String
  path : List String
  clientKey : String
  headers : List (String × String)

/-- The request URL reconstructed from the segment list. -/
def renderPath (p : List String) : String :=
  "/" ++ String.intercalate ("/") p

/-- The response the gateway sends to the client. -/
structure GwResponse where
  status : Nat
  headers : List (String × String)
  body : JVal

/-- A response received from an upstream service. -/
structure UpResponse where
  status : Nat
  headers : List (String × String)
  body : JVal

/-- Outcome of one outbound proxy attempt: either the upstream answered
(with any status code) or the connection failed (refused, DNS failure,
timeout), which `http-proxy-middleware` surfaces as an error event. -/
inductive UpResult where
  | ok (r : UpResponse)
  | connError (msg : String)

/-- Per-request runtime values that the handlers read from the process
(`new Date().toISOString()`, `process.uptime()`, `process.memoryUsage()`,
and whether the `try` block of the health handler threw). -/
structure RuntimeInfo where
  timestamp : String
  uptimeSec : Nat
  memRss : Nat
  memHeapTotal : Nat
  memHeapUsed : Nat
  selfCheckError : Option String

/-- Everything observable about how the gateway handles one request. -/
structure Outcome where
  response : GwResponse
  limiterProcessed : Bool := false
  rateAdmitted : Bool := true
  newCount : Nat := 0
  forwardedTo : Option Svc := none
  forwardedPath : Option (List String) := none
  attempts : Nat := 0
  logs : List String := []

/-- The request-logging middleware line:
`` logger.info(`${req.method} ${req.path} - ${req.ip}`) ``. -/
def logLine (req : Request) : String :=
  req.method ++ " " ++ renderPath req.path ++ " - " ++ req.clientKey

/-- First route-table entry whose mount path matches the request path
(Express dispatches to middleware in registration order). -/
def resolveRoute (p : List String) : Option (List String × Svc) :=
  routeTable.find? (fun e => e.1.isPrefixOf p)

/-- The `onError` body of each proxy: a 503 JSON response whose error
field reads, for example, `User service unavailable`. -/
def unavailableResponse (u : Svc) : GwResponse :=
  { status := 503, headers := [],
    body := .obj [("error", .str (svcLabel u ++ " service unavailable"))] }

/-- The proxy-error log line, for example `User Service Proxy Error:`. -/
def proxyErrorLog (u : Svc) : String :=
  svcLabel u ++ " Service Proxy Error:"

/-- One proxy dispatch: a single outbound attempt on the rewritten path;
an upstream response is relayed verbatim, a connection error is mapped
to the 503 `onError` response and logged. -/
def forwardOutcome (ust : Svc → UpResult) (req : Request)
    (e : List String × Svc) : Outcome :=
  let u := e.2
  let fp := applyRewrite (rewriteRules u) req.path
  match ust u with
  | .ok r =>
    { response := { status := r.status, headers := r.headers, body := r.body },
      forwardedTo := some u, forwardedPath := some fp, attempts := 1,
      logs := [logLine req] }
  | .connError _ =>
    { response := unavailableResponse u,
      forwardedTo := some u, forwardedPath := some fp, attempts := 1,
      logs := [logLine req, proxyErrorLog u] }

/-- Body of the self health report of the gateway (`routes/health.js`,
success branch of the root health route). -/
def healthBody (env : Env) (rt : RuntimeInfo) : JVal :=
  .obj [("status", .str ("healthy")),
        ("service", .str ("api-gateway")),
        ("timestamp", .str rt.timestamp),
        ("uptime", .num rt.uptimeSec),
        ("version", .str ("1.0.0")),
        ("environment", .str (envOr env.nodeEnv ("development"))),
        ("memory", .obj [("rss", .num rt.memRss),
                         ("heapTotal", .num rt.memHeapTotal),
                         ("heapUsed", .num rt.memHeapUsed)])]

/-- The health router (`routes/health.js`): `GET /` self-report
(503 branch when the handler body throws), `GET /ready`, `GET /live`;
anything else falls through. -/
def healthRouter (env : Env) (rt : RuntimeInfo) (method : String)
    (sub : List String) : Option GwResponse :=
  if method = "GET" then
    match sub with
    | [] =>
      match rt.selfCheckError with
      | none => some { status := 200, headers := [], body := healthBody env rt }
      | some e =>
        some { status := 503, headers := [],
               body := .obj [("status", .str ("unhealthy")),
                             ("service", .str ("api-gateway")),
                             ("timestamp", .str rt.timestamp),
                             ("error", .str e)] }
    | ["ready"] =>
      some { status := 200, headers := [],
             body := .obj [("status", .str ("ready")),
                           ("service", .str ("api-gateway")),
                           ("timestamp", .str rt.timestamp)] }
    | ["live"] =>
      some { status := 200, headers := [],
             body := .obj [("status", .str ("alive")),
                           ("service", .str ("api-gateway")),
                           ("timestamp", .str rt.timestamp),
                           ("uptime", .num rt.uptimeSec)] }
    | _ => none
  else none

/-- Body of the root endpoint: service banner, endpoint map, and the
configured internal base URL of every upstream. -/
def rootBody (env : Env) (rt : RuntimeInfo) : JVal :=
  .obj [("service", .str ("API Gateway")),
        ("version", .str ("1.0.0")),
        ("status", .str ("running")),
        ("timestamp", .str rt.timestamp),
        ("endpoints",
          .obj [("health", .str ("/health")),
                ("users", .str ("/api/users")),
                ("auth", .str ("/api/auth")),
                ("products", .str ("/api/products")),
                ("categories", .str ("/api/categories")),
                ("inventory", .str ("/api/inventory")),
                ("orders", .str ("/api/orders")),
                ("cart", .str ("/api/cart")),
                ("docs", .str ("/api-docs"))]),
        ("services",
          .obj [("user_service", .str (upstreamTarget env .user)),
                ("product_service", .str (upstreamTarget env .product)),
                ("order_service", .str (upstreamTarget env .order))])]

/-- The catch-all fallthrough handler: a 404 JSON response carrying an
error field, the request path and the request method. -/
def notFoundResponse (req : Request) : GwResponse :=
  { status := 404, headers := [],
    body := .obj [("error", .str ("Endpoint not found")),
                  ("path", .str (renderPath req.path)),
                  ("method", .str req.method)] }

/-- Stand-in response of the swagger-ui mount at `/api-docs`. -/
def docsResponse : GwResponse :=
  { status := 200, headers := [], body := .str ("swagger-ui") }

/-- The middleware chain after the rate limiter, in registration order:
swagger docs, health router, the seven proxy mounts, the root endpoint,
and the catch-all 404 handler. -/
def routePhase (env : Env) (ust : Svc → UpResult) (rt : RuntimeInfo)
    (req : Request) : Outcome :=
  if (["api-docs"] : List String).isPrefixOf req.path = true then
    { response := docsResponse, logs := [logLine req] }
  else
    match (if (["health"] : List String).isPrefixOf req.path = true then
             healthRouter env rt req.method (req.path.drop 1)
           else none) with
    | some r => { response := r, logs := [logLine req] }
    | none =>
      match resolveRoute req.path with
      | some e => forwardOutcome ust req e
      | none =>
        if req.method = "GET" ∧ req.path = [] then
          { response := { status := 200, headers := [], body := rootBody env rt },
            logs := [logLine req] }
        else
          { response := notFoundResponse req, logs := [logLine req] }

/-- The `express-rate-limit` rejection: status 429 with the configured
message, sent before any later middleware runs. -/
def rateLimitResponse : GwResponse :=
  { status := 429, headers := [],
    body := .str ("Too many requests from this IP, please try again later.") }

/-- Full handling of one request. `count` is the current hit count of
the limiter bucket of the client key; the limiter only guards paths
under its `/api/` mount, counts every hit there, and rejects once the
count has reached the window maximum. -/
def handleRequest (env : Env) (ust : Svc → UpResult) (rt : RuntimeInfo)
    (req : Request) (count : Nat) : Outcome :=
  if apiMount.isPrefixOf req.path = true ∧ maxRequestsPerWindow ≤ count then
    { response := rateLimitResponse, limiterProcessed := true,
      rateAdmitted := false, newCount := count + 1 }
  else
    { routePhase env ust rt req with
      limiterProcessed := apiMount.isPrefixOf req.path,
      rateAdmitted := true,
      newCount := if apiMount.isPrefixOf req.path then count + 1 else count }

/-- Run a sequence of requests from a single client through the gateway,
threading the limiter bucket count (the Node event loop executes the
increments of the in-memory store one at a time, so any concurrent
interleaving is some sequential order). -/
def runSameClient (env : Env) (ust : Svc → UpResult) (rt : RuntimeInfo) :
    List Request → Nat → List Outcome
  | [], _ => []
  | r :: rs, c =>
    let o := handleRequest env ust rt r c
    o :: runSameClient env ust rt rs o.newCount

/-- Number of requests the limiter admitted. -/
def countAdmitted (l : List Outcome) : Nat :=
  l.countP (fun o => o.rateAdmitted)

/-- The final error middleware `app.use((err, req, res, next) => ...)`:
status 500, stable error code, and the exception message only when
`NODE_ENV` equals `development`. -/
def errorHandler (env : Env) (errMessage : String) : GwResponse :=
  { status := 500, headers := [],
    body := .obj [("error", .str ("Internal Server Error")),
                  ("message", .str (if env.nodeEnv = some ("development")
                                    then errMessage
                                    else "Something went wrong"))] }

/-- Startup (`app.listen`): the source performs no configuration
validation; the server begins listening unconditionally. -/
def startGateway (env : Env) : Option Env := some env

/-! ## Concrete fixtures used by witnesses and counterexamples -/

/-- An environment with no variables set: every default applies. -/
def defaultEnv : Env :=
  { userServiceUrl := none, productServiceUrl := none,
    orderServiceUrl := none, nodeEnv := none }

/-- Fixed runtime readings for concrete evaluations. -/
def someRuntime : RuntimeInfo :=
  { timestamp := "2026-01-01T00:00:00.000Z", uptimeSec := 42,
    memRss := 50, memHeapTotal := 30, memHeapUsed := 20,
    selfCheckError := none }

/-- A world where every upstream connection is refused. -/
def allDown : Svc → UpResult := fun _ => .connError ("ECONNREFUSED")

/-- A world where every upstream answers 200 with a small JSON body. -/
def allOk : Svc → UpResult := fun _ =>
  .ok { status := 200,
        headers := [("content-type", "application/json")],
        body := .str ("ok") }

/-- Request `GET /health` from client 1.2.3.4. -/
def healthReq : Request :=
  { method := "GET", path := ["health"], clientKey := "1.2.3.4",
    headers := [] }

/-- Request `GET /api/products/7`. -/
def products7Req : Request :=
  { method := "GET", path := ["api", "products", "7"],
    clientKey := "1.2.3.4", headers := [] }

/-- Request `GET /api/orders/5`. -/
def orders5Req : Request :=
  { method := "GET", path := ["api", "orders", "5"],
    clientKey := "1.2.3.4", headers := [] }

/-- Request `GET /api/unknown`. -/
def unknownReq : Request :=
  { method := "GET", path := ["api", "unknown"],
    clientKey := "1.2.3.4", headers := [] }

/-- Request `GET /` to the root path. -/
def rootReq : Request :=
  { method := "GET", path := [], clientKey := "1.2.3.4", headers := [] }

/-! ## Routing lemmas -/

/-- The mount paths of the route table are pairwise non-overlapping, so
the first matching entry for a path under a mount is that mount itself. -/
theorem route_first (e : List String × Svc) (he : e ∈ routeTable)
    (rest : List String) : resolveRoute (e.1 ++ rest) = some e := by
  simp only [routeTable, List.mem_cons, List.not_mem_nil, or_false] at he
  rcases he with rfl | rfl | rfl | rfl | rfl | rfl | rfl <;>
    simp [resolveRoute, routeTable, applyRewrite, rewriteRules, apiMount,
      List.find?_cons, List.isPrefixOf_cons₂, List.isPrefixOf_nil_left]

/-- Every rewrite rule of the source maps its matched leading segments to
themselves, so the forwarded path equals the request path. -/
theorem rewrite_id (e : List String × Svc) (he : e ∈ routeTable)
    (rest : List String) :
    applyRewrite (rewriteRules e.2) (e.1 ++ rest) = e.1 ++ rest := by
  simp only [routeTable, List.mem_cons, List.not_mem_nil, or_false] at he
  rcases he with rfl | rfl | rfl | rfl | rfl | rfl | rfl <;>
    simp [resolveRoute, routeTable, applyRewrite, rewriteRules, apiMount,
      List.find?_cons, List.isPrefixOf_cons₂, List.isPrefixOf_nil_left]

/-- Every proxied path lies under the mount path of the rate limiter. -/
theorem api_under (e : List String × Svc) (he : e ∈ routeTable)
    (rest : List String) : apiMount.isPrefixOf (e.1 ++ rest) = true := by
  simp only [routeTable, List.mem_cons, List.not_mem_nil, or_false] at he
  rcases he with rfl | rfl | rfl | rfl | rfl | rfl | rfl <;>
    simp [resolveRoute, routeTable, applyRewrite, rewriteRules, apiMount,
      List.find?_cons, List.isPrefixOf_cons₂, List.isPrefixOf_nil_left]

/-- No proxied path lies under the swagger mount. -/
theorem docs_not_under (e : List String × Svc) (he : e ∈ routeTable)
    (rest : List String) :
    (["api-docs"] : List String).isPrefixOf (e.1 ++ rest) = false := by
  simp only [routeTable, List.mem_cons, List.not_mem_nil, or_false] at he
  rcases he with rfl | rfl | rfl | rfl | rfl | rfl | rfl <;>
    simp [resolveRoute, routeTable, applyRewrite, rewriteRules, apiMount,
      List.find?_cons, List.isPrefixOf_cons₂, List.isPrefixOf_nil_left]

/-- No proxied path lies under the health mount. -/
theorem health_not_under (e : List String × Svc) (he : e ∈ routeTable)
    (rest : List String) :
    (["health"] : List String).isPrefixOf (e.1 ++ rest) = false := by
  simp only [routeTable, List.mem_cons, List.not_mem_nil, or_false] at he
  rcases he with rfl | rfl | rfl | rfl | rfl | rfl | rfl <;>
    simp [resolveRoute, routeTable, applyRewrite, rewriteRules, apiMount,
      List.find?_cons, List.isPrefixOf_cons₂, List.isPrefixOf_nil_left]

/-- A request whose path lies under a proxy mount, once admitted by the
rate limiter, is dispatched to exactly that entry of the route table. -/
theorem dispatch_forward (env : Env) (ust : Svc → UpResult)
    (rt : RuntimeInfo) (m k : String) (hs : List (String × String))
    (c : Nat) (e : List String × Svc) (rest : List String)
    (hc : c < maxRequestsPerWindow) (he : e ∈ routeTable) :
    handleRequest env ust rt
        { method := m, path := e.1 ++ rest, clientKey := k, headers := hs }
        c =
      { forwardOutcome ust
          { method := m, path := e.1 ++ rest, clientKey := k, headers := hs }
          e with
        limiterProcessed := true, rateAdmitted := true, newCount := c + 1 } := by
  have hle : ¬maxRequestsPerWindow ≤ c := Nat.not_le.mpr hc
  have hd := docs_not_under e he rest
  have hh := health_not_under e he rest
  have hr := route_first e he rest
  have ha := api_under e he rest
  simp [handleRequest, routePhase, hle, hd, hh, hr, ha]

/-- A proxy dispatch targets the upstream of its route-table entry,
whether the upstream answers or the connection fails. -/
theorem forwardOutcome_to (ust : Svc → UpResult) (req : Request)
    (e : List String × Svc) :
    (forwardOutcome ust req e).forwardedTo = some e.2 := by
  cases h : ust e.2 <;> simp [forwardOutcome, h]

/-- C2: a request whose path falls under the mount of route-table entry
`e₁` is dispatched to the upstream of `e₁` and never to the upstream of
any entry `e₂` with a different upstream. -/
theorem c2_route_partition (env : Env) (ust : Svc → UpResult)
    (rt : RuntimeInfo) (req : Request) (c : Nat)
    (e₁ e₂ : List String × Svc) (rest : List String)
    (hc : c < maxRequestsPerWindow)
    (h₁ : e₁ ∈ routeTable) (h₂ : e₂ ∈ routeTable)
    (hpath : req.path = e₁.1 ++ rest) (hne : e₂.2 ≠ e₁.2) :
    (handleRequest env ust rt req c).forwardedTo = some e₁.2 ∧
    (handleRequest env ust rt req c).forwardedTo ≠ some e₂.2 := by
  obtain ⟨m, p, k, hs⟩ := req
  have hp : p = e₁.1 ++ rest := hpath
  subst hp
  rw [dispatch_forward env ust rt m k hs c e₁ rest hc h₁]
  have hto : (forwardOutcome ust
      { method := m, path := e₁.1 ++ rest, clientKey := k, headers := hs }
      e₁).forwardedTo = some e₁.2 := forwardOutcome_to ust _ e₁
  refine ⟨hto, fun h => ?_⟩
  have h1 : some e₁.2 = some e₂.2 := hto.symm.trans h
  exact hne (Option.some.inj h1).symm

/-- C3: when the connection to the routed upstream fails, the gateway
answers 503 with the `onError` body naming that upstream, logs the proxy
error with the upstream identity, and made exactly one attempt. -/
theorem c3_upstream_unavailable (env : Env) (ust : Svc → UpResult)
    (rt : RuntimeInfo) (req : Request) (c : Nat)
    (e : List String × Svc) (rest : List String) (msg : String)
    (hc : c < maxRequestsPerWindow) (he : e ∈ routeTable)
    (hpath : req.path = e.1 ++ rest)
    (herr : ust e.2 = .connError msg) :
    (handleRequest env ust rt req c).response.status = 503 ∧
    (handleRequest env ust rt req c).response.body =
      .obj [("error", .str (svcLabel e.2 ++ " service unavailable"))] ∧
    proxyErrorLog e.2 ∈ (handleRequest env ust rt req c).logs ∧
    (handleRequest env ust rt req c).attempts = 1 ∧
    (handleRequest env ust rt req c).forwardedTo = some e.2 := by
  obtain ⟨m, p, k, hs⟩ := req
  have hp : p = e.1 ++ rest := hpath
  subst hp
  rw [dispatch_forward env ust rt m k hs c e rest hc he]
  simp [forwardOutcome, herr, unavailableResponse]

/-- C9: when the routed upstream answers, the gateway relays status,
headers and body verbatim, and the forwarded path is the request path
unchanged (the configured rewrite rules are all identities). -/
theorem c9_relay_verbatim (env : Env) (ust : Svc → UpResult)
    (rt : RuntimeInfo) (req : Request) (c : Nat)
    (e : List String × Svc) (rest : List String) (r : UpResponse)
    (hc : c < maxRequestsPerWindow) (he : e ∈ routeTable)
    (hpath : req.path = e.1 ++ rest)
    (hok : ust e.2 = .ok r) :
    (handleRequest env ust rt req c).response.status = r.status ∧
    (handleRequest env ust rt req c).response.headers = r.headers ∧
    (handleRequest env ust rt req c).response.body = r.body ∧
    (handleRequest env ust rt req c).forwardedTo = some e.2 ∧
    (handleRequest env ust rt req c).forwardedPath = some req.path ∧
    (handleRequest env ust rt req c).attempts = 1 := by
  obtain ⟨m, p, k, hs⟩ := req
  have hp : p = e.1 ++ rest := hpath
  subst hp
  rw [dispatch_forward env ust rt m k hs c e rest hc he]
  simp [forwardOutcome, hok, rewrite_id e he rest]

/-- C4: a request admitted by the limiter whose path matches no mount of
the gateway receives the structured 404 body and is never forwarded. -/
theorem c4_unmatched_404 (env : Env) (ust : Svc → UpResult)
    (rt : RuntimeInfo) (req : Request) (c : Nat)
    (hc : c < maxRequestsPerWindow)
    (hroute : resolveRoute req.path = none)
    (hdocs : (["api-docs"] : List String).isPrefixOf req.path = false)
    (hhealth : (["health"] : List String).isPrefixOf req.path = false)
    (hroot : ¬(req.method = "GET" ∧ req.path = [])) :
    (handleRequest env ust rt req c).response.status = 404 ∧
    (handleRequest env ust rt req c).response.body =
      .obj [("error", .str ("Endpoint not found")),
            ("path", .str (renderPath req.path)),
            ("method", .str req.method)] ∧
    (handleRequest env ust rt req c).forwardedTo = none ∧
    (handleRequest env ust rt req c).attempts = 0 := by
  have hle : ¬maxRequestsPerWindow ≤ c := Nat.not_le.mpr hc
  simp [handleRequest, routePhase, hle, hroute, hdocs, hhealth, hroot,
    notFoundResponse]

/-! ## Rate-limiter lemmas -/

/-- A request under the limiter mount with a bucket count below the
window maximum is admitted and the count incremented. -/
theorem limiter_admit (env : Env) (ust : Svc → UpResult)
    (rt : RuntimeInfo) (req : Request) (c : Nat)
    (hscope : apiMount.isPrefixOf req.path = true)
    (hc : c < maxRequestsPerWindow) :
    (handleRequest env ust rt req c).rateAdmitted = true ∧
    (handleRequest env ust rt req c).newCount = c + 1 := by
  have hle : ¬maxRequestsPerWindow ≤ c := Nat.not_le.mpr hc
  simp [handleRequest, hle, hscope]

/-- A request under the limiter mount with a bucket count at or above the
window maximum is rejected with the 429 message without any dispatch;
the hit is still counted. -/
theorem limiter_reject (env : Env) (ust : Svc → UpResult)
    (rt : RuntimeInfo) (req : Request) (c : Nat)
    (hscope : apiMount.isPrefixOf req.path = true)
    (hc : maxRequestsPerWindow ≤ c) :
    (handleRequest env ust rt req c).response = rateLimitResponse ∧
    (handleRequest env ust rt req c).rateAdmitted = false ∧
    (handleRequest env ust rt req c).newCount = c + 1 ∧
    (handleRequest env ust rt req c).forwardedTo = none ∧
    (handleRequest env ust rt req c).limiterProcessed = true ∧
    (handleRequest env ust rt req c).attempts = 0 := by
  simp [handleRequest, hscope, hc]

/-- Over any sequence of requests from one client, all under the limiter
mount, the number of admitted requests is the length capped by the
remaining budget of the window. -/
theorem countAdmitted_run (env : Env) (ust : Svc → UpResult)
    (rt : RuntimeInfo) (reqs : List Request) :
    ∀ c : Nat, (∀ r ∈ reqs, apiMount.isPrefixOf r.path = true) →
      countAdmitted (runSameClient env ust rt reqs c) =
        min reqs.length (maxRequestsPerWindow - c) := by
  induction reqs with
  | nil =>
    intro c _
    simp [runSameClient, countAdmitted]
  | cons r rs ih =>
    intro c hall
    have hr : apiMount.isPrefixOf r.path = true :=
      hall r (List.mem_cons_self r rs)
    have hrs : ∀ x ∈ rs, apiMount.isPrefixOf x.path = true :=
      fun x hx => hall x (List.mem_cons_of_mem r hx)
    have ihc := ih (c + 1) hrs
    simp only [countAdmitted] at ihc ⊢
    by_cases hc : c < maxRequestsPerWindow
    · obtain ⟨ha, hn⟩ := limiter_admit env ust rt r c hr hc
      simp [runSameClient, List.countP_cons, ha, hn, ihc]
      omega
    · have hcc : maxRequestsPerWindow ≤ c := Nat.le_of_not_lt hc
      obtain ⟨_, hrj, hn, _, _, _⟩ := limiter_reject env ust rt r c hr hcc
      simp [runSameClient, List.countP_cons, hrj, hn, ihc]
      omega

/-- C5: a request with bucket count below the threshold is admitted and
the count incremented; at or above the threshold it is rejected with the
429 message and no dispatch happens; and over any request sequence of a
single client under the limiter mount, at most `maxRequestsPerWindow`
requests are admitted in the window. -/
theorem c5_rate_limit (env : Env) (ust : Svc → UpResult)
    (rt : RuntimeInfo) (req : Request) (c : Nat) (reqs : List Request)
    (hscope : apiMount.isPrefixOf req.path = true)
    (hall : ∀ r ∈ reqs, apiMount.isPrefixOf r.path = true) :
    (c < maxRequestsPerWindow →
      (handleRequest env ust rt req c).rateAdmitted = true ∧
      (handleRequest env ust rt req c).newCount = c + 1) ∧
    (maxRequestsPerWindow ≤ c →
      (handleRequest env ust rt req c).response = rateLimitResponse ∧
      (handleRequest env ust rt req c).forwardedTo = none ∧
      (handleRequest env ust rt req c).attempts = 0) ∧
    countAdmitted (runSameClient env ust rt reqs 0) ≤
      maxRequestsPerWindow := by
  refine ⟨fun hc => limiter_admit env ust rt req c hscope hc,
    fun hc => ?_, ?_⟩
  · obtain ⟨h1, _, _, h4, _, h6⟩ := limiter_reject env ust rt req c hscope hc
    exact ⟨h1, h4, h6⟩
  · have h := countAdmitted_run env ust rt reqs 0 hall
    omega

/-! ## Limiter ordering (C8) -/

/-- A path under a two-segment mount starting with `api` lies under the
limiter mount. -/
theorem api_of_two (x : String) (p : List String)
    (h : (["api", x] : List String).isPrefixOf p = true) :
    apiMount.isPrefixOf p = true := by
  cases p with
  | nil => simp at h
  | cons q qs =>
    rw [List.isPrefixOf_cons₂, Bool.and_eq_true] at h
    simp [apiMount, List.isPrefixOf_cons₂, h.1]

/-- Any request the route phase dispatches to an upstream has a path
under the limiter mount. -/
theorem routePhase_api_scope (env : Env) (ust : Svc → UpResult)
    (rt : RuntimeInfo) (req : Request)
    (h : (routePhase env ust rt req).forwardedTo.isSome = true) :
    apiMount.isPrefixOf req.path = true := by
  unfold routePhase at h
  split at h
  · simp at h
  · split at h
    · simp at h
    · split at h
      · rename_i e hmatch
        rw [resolveRoute] at hmatch
        have hpred := List.find?_some hmatch
        have hmem := List.mem_of_find?_eq_some hmatch
        simp only [routeTable, List.mem_cons, List.not_mem_nil,
          or_false] at hmem
        rcases hmem with rfl | rfl | rfl | rfl | rfl | rfl | rfl <;>
          exact api_of_two _ req.path hpred
      · split at h <;> simp at h

/-- C8 (amended): every request the gateway dispatches to an upstream was
first processed by the rate limiter, and an over-limit client is never
dispatched; requests outside the limiter mount bypass the limiter. -/
theorem c8_limiter_before_dispatch (env : Env) (ust : Svc → UpResult)
    (rt : RuntimeInfo) (req : Request) (c : Nat) :
    ((handleRequest env ust rt req c).forwardedTo.isSome = true →
      (handleRequest env ust rt req c).limiterProcessed = true) ∧
    (apiMount.isPrefixOf req.path = true → maxRequestsPerWindow ≤ c →
      (handleRequest env ust rt req c).forwardedTo = none) := by
  constructor
  · intro h
    by_cases hlim : apiMount.isPrefixOf req.path = true ∧
        maxRequestsPerWindow ≤ c
    · simp [handleRequest, hlim] at h
    · simp only [handleRequest, if_neg hlim] at h ⊢
      exact routePhase_api_scope env ust rt req h
  · intro hs hc
    simp [handleRequest, hs, hc]

/-- C8 counterexample: a `GET /health` request from a client whose bucket
count is far above the window maximum is still served (status 200) and
the rate limiter never processed it. -/
theorem c8_counterexample :
    (handleRequest defaultEnv allOk someRuntime healthReq
        1000).limiterProcessed = false ∧
    (handleRequest defaultEnv allOk someRuntime healthReq
        1000).response.status = 200 ∧
    (handleRequest defaultEnv allOk someRuntime healthReq
        1000).response.body.lookup ("status") = some (.str ("healthy")) :=
  ⟨rfl, rfl, rfl⟩

/-! ## Health endpoint (C1) -/

/-- C1 counterexample: with every upstream connection refused, the health
endpoint still answers 200 with overall status `healthy`, and its body
holds only the self-report fields — no per-upstream health report. -/
theorem c1_counterexample :
    (handleRequest defaultEnv allDown someRuntime healthReq
        0).response.status = 200 ∧
    (handleRequest defaultEnv allDown someRuntime healthReq
        0).response.body.lookup ("status") = some (.str ("healthy")) ∧
    (handleRequest defaultEnv allDown someRuntime healthReq
        0).response.body.keys =
      ["status", "service", "timestamp", "uptime", "version",
       "environment", "memory"] ∧
    allDown Svc.user = .connError ("ECONNREFUSED") ∧
    allDown Svc.product = .connError ("ECONNREFUSED") ∧
    allDown Svc.order = .connError ("ECONNREFUSED") :=
  ⟨rfl, rfl, rfl, rfl, rfl, rfl⟩

/-- C1 (amended): the health endpoint reports only the gateway self
health: its response is independent of the state of every upstream, and
on a successful self-check it is a 200 whose status field is `healthy`
and whose fields are exactly the self-report fields. -/
theorem c1_health_self_report (env : Env) (ust ust' : Svc → UpResult)
    (rt : RuntimeInfo) (req : Request) (c : Nat)
    (hm : req.method = "GET") (hp : req.path = ["health"]) :
    (handleRequest env ust rt req c).response =
      (handleRequest env ust' rt req c).response ∧
    (rt.selfCheckError = none →
      (handleRequest env ust rt req c).response.status = 200 ∧
      (handleRequest env ust rt req c).response.body.lookup ("status") =
        some (.str ("healthy")) ∧
      (handleRequest env ust rt req c).response.body.keys =
        ["status", "service", "timestamp", "uptime", "version",
         "environment", "memory"]) := by
  obtain ⟨m, p, k, hs⟩ := req
  obtain ⟨ts, us, mr, mh, mu, sce⟩ := rt
  have hm' : m = "GET" := hm
  have hp' : p = ["health"] := hp
  subst hm'
  subst hp'
  cases sce with
  | none => exact ⟨rfl, fun _ => ⟨rfl, rfl, rfl⟩⟩
  | some e => exact ⟨rfl, fun hsc => Option.noConfusion hsc⟩

/-! ## Error middleware (C6) -/

/-- An environment whose `NODE_ENV` is `development`. -/
def devEnv : Env := { defaultEnv with nodeEnv := some ("development") }

/-- C6 counterexample: with `NODE_ENV` set to `development`, the error
middleware places the internal exception message in the client response
body instead of the generic message. -/
theorem c6_counterexample :
    errorHandler devEnv ("connect ECONNREFUSED 10.0.0.5:5432") =
      { status := 500, headers := [],
        body := .obj
          [("error", .str ("Internal Server Error")),
           ("message", .str ("connect ECONNREFUSED 10.0.0.5:5432"))] } ∧
    ("connect ECONNREFUSED 10.0.0.5:5432" : String) ≠
      "Something went wrong" :=
  ⟨rfl, by decide⟩

/-- C6 (amended): whenever `NODE_ENV` is not `development`, every error
surfaced by the error middleware carries the stable code
`Internal Server Error` and the generic message, independent of the
internal exception message. -/
theorem c6_no_internal_detail (env : Env) (msg : String)
    (h : env.nodeEnv ≠ some ("development")) :
    errorHandler env msg =
      { status := 500, headers := [],
        body := .obj [("error", .str ("Internal Server Error")),
                      ("message", .str ("Something went wrong"))] } := by
  simp [errorHandler, h]

/-! ## Startup configuration (C7) -/

/-- C7: every route-table entry resolves to a configured upstream of the
registry under every environment (the source falls back to a hard-coded
default target, so an unresolvable reference cannot exist), and startup
always reaches the listening state. -/
theorem c7_routes_resolve (env : Env) (e : List String × Svc)
    (he : e ∈ routeTable) :
    (e.2, upstreamTarget env e.2) ∈ registry env ∧
    (startGateway env).isSome = true := by
  refine ⟨?_, rfl⟩
  simp only [routeTable, List.mem_cons, List.not_mem_nil, or_false] at he
  rcases he with rfl | rfl | rfl | rfl | rfl | rfl | rfl <;> simp [registry]

/-! ## Root endpoint disclosure (C10) -/

/-- C10: a `GET /` request is answered 200 with a `services` object that
discloses the configured internal base URL of all three upstreams
(environment variables or their defaults), and the response does not
depend on any request header, so an unauthenticated client receives it. -/
theorem c10_root_discloses_urls (env : Env) (ust : Svc → UpResult)
    (rt : RuntimeInfo) (c : Nat) (k : String)
    (hs hs' : List (String × String)) :
    (handleRequest env ust rt
        { method := "GET", path := [], clientKey := k, headers := hs }
        c).response.status = 200 ∧
    (handleRequest env ust rt
        { method := "GET", path := [], clientKey := k, headers := hs }
        c).response.body.lookup ("services") =
      some (.obj
        [("user_service",
          .str (envOr env.userServiceUrl ("http://user-service:3001"))),
         ("product_service",
          .str (envOr env.productServiceUrl ("http://product-service:3002"))),
         ("order_service",
          .str (envOr env.orderServiceUrl ("http://order-service:3003")))]) ∧
    (handleRequest env ust rt
        { method := "GET", path := [], clientKey := k, headers := hs }
        c).response =
      (handleRequest env ust rt
        { method := "GET", path := [], clientKey := k, headers := hs' }
        c).response :=
  ⟨rfl, rfl, rfl⟩

/-! ## Witnesses: the claim theorems applied at concrete inputs -/

/-- Witness for C1 (amended) at `GET /health` with all upstreams up
versus all upstreams down. -/
theorem c1_witness :
    (handleRequest defaultEnv allOk someRuntime healthReq 7).response =
      (handleRequest defaultEnv allDown someRuntime healthReq 7).response ∧
    (handleRequest defaultEnv allOk someRuntime healthReq
        7).response.status = 200 :=
  ⟨(c1_health_self_report defaultEnv allOk allDown someRuntime healthReq 7
      rfl rfl).1,
   ((c1_health_self_report defaultEnv allOk allDown someRuntime healthReq 7
      rfl rfl).2 rfl).1⟩

/-- Witness for C2 at `GET /api/products/7`: dispatched to the product
upstream, never to the order upstream. -/
theorem c2_witness :
    (handleRequest defaultEnv allOk someRuntime products7Req
        0).forwardedTo = some Svc.product ∧
    (handleRequest defaultEnv allOk someRuntime products7Req
        0).forwardedTo ≠ some Svc.order :=
  c2_route_partition defaultEnv allOk someRuntime products7Req 0
    (["api", "products"], Svc.product) (["api", "orders"], Svc.order)
    ["7"] (by decide) (by decide) (by decide) rfl (by decide)

/-- Witness for C3 at `GET /api/products/7` with the product upstream
connection refused. -/
theorem c3_witness :
    (handleRequest defaultEnv allDown someRuntime products7Req
        0).response.status = 503 ∧
    proxyErrorLog Svc.product ∈
      (handleRequest defaultEnv allDown someRuntime products7Req 0).logs ∧
    (handleRequest defaultEnv allDown someRuntime products7Req
        0).attempts = 1 :=
  ⟨(c3_upstream_unavailable defaultEnv allDown someRuntime products7Req 0
      (["api", "products"], Svc.product) ["7"] ("ECONNREFUSED")
      (by decide) (by decide) rfl rfl).1,
   (c3_upstream_unavailable defaultEnv allDown someRuntime products7Req 0
      (["api", "products"], Svc.product) ["7"] ("ECONNREFUSED")
      (by decide) (by decide) rfl rfl).2.2.1,
   (c3_upstream_unavailable defaultEnv allDown someRuntime products7Req 0
      (["api", "products"], Svc.product) ["7"] ("ECONNREFUSED")
      (by decide) (by decide) rfl rfl).2.2.2.1⟩

/-- Witness for C4 at `GET /api/unknown`. -/
theorem c4_witness :
    (handleRequest defaultEnv allOk someRuntime unknownReq
        0).response.status = 404 ∧
    (handleRequest defaultEnv allOk someRuntime unknownReq
        0).forwardedTo = none :=
  ⟨(c4_unmatched_404 defaultEnv allOk someRuntime unknownReq 0
      (by decide) (by decide) (by decide) (by decide) (by decide)).1,
   (c4_unmatched_404 defaultEnv allOk someRuntime unknownReq 0
      (by decide) (by decide) (by decide) (by decide) (by decide)).2.2.1⟩

/-- Witness for C5: an over-limit request is rejected with the 429
message, and a concrete request burst admits at most the window
maximum. -/
theorem c5_witness :
    (handleRequest defaultEnv allOk someRuntime products7Req
        305).response = rateLimitResponse ∧
    countAdmitted (runSameClient defaultEnv allOk someRuntime
        (List.replicate 3 products7Req) 0) ≤ maxRequestsPerWindow :=
  ⟨((c5_rate_limit defaultEnv allOk someRuntime products7Req 305
      (List.replicate 3 products7Req) (by decide) (by decide)).2.1
      (by decide)).1,
   (c5_rate_limit defaultEnv allOk someRuntime products7Req 305
      (List.replicate 3 products7Req) (by decide) (by decide)).2.2⟩

/-- Witness for C6 (amended) with an unset `NODE_ENV`. -/
theorem c6_witness :
    errorHandler defaultEnv ("boom") =
      { status := 500, headers := [],
        body := .obj [("error", .str ("Internal Server Error")),
                      ("message", .str ("Something went wrong"))] } :=
  c6_no_internal_detail defaultEnv ("boom") (by decide)

/-- Witness for C7 at the first route-table entry. -/
theorem c7_witness :
    (Svc.user, upstreamTarget defaultEnv Svc.user) ∈
      registry defaultEnv ∧
    (startGateway defaultEnv).isSome = true :=
  c7_routes_resolve defaultEnv (["api", "users"], Svc.user) (by decide)

/-- Witness for C8 (amended): a dispatched request was limiter-processed
and an over-limit client is not dispatched. -/
theorem c8_witness :
    (handleRequest defaultEnv allOk someRuntime products7Req
        0).limiterProcessed = true ∧
    (handleRequest defaultEnv allOk someRuntime unknownReq
        400).forwardedTo = none :=
  ⟨(c8_limiter_before_dispatch defaultEnv allOk someRuntime products7Req
      0).1 rfl,
   (c8_limiter_before_dispatch defaultEnv allOk someRuntime unknownReq
      400).2 rfl (by decide)⟩

/-- Witness for C9 at `GET /api/products/7` with a responding product
upstream. -/
theorem c9_witness :
    (handleRequest defaultEnv allOk someRuntime products7Req
        0).response.status = 200 ∧
    (handleRequest defaultEnv allOk someRuntime products7Req
        0).forwardedPath = some ["api", "products", "7"] :=
  ⟨(c9_relay_verbatim defaultEnv allOk someRuntime products7Req 0
      (["api", "products"], Svc.product) ["7"]
      { status := 200, headers := [("content-type", "application/json")],
        body := .str ("ok") }
      (by decide) (by decide) rfl rfl).1,
   (c9_relay_verbatim defaultEnv allOk someRuntime products7Req 0
      (["api", "products"], Svc.product) ["7"]
      { status := 200, headers := [("content-type", "application/json")],
        body := .str ("ok") }
      (by decide) (by decide) rfl rfl).2.2.2.2.1⟩

end Gateway
